import Mathlib

/-!
Verification of the design-extraction service against its specification.

The development shallowly embeds the relevant parts of the repository:

* `app/core/model_manager.py`, `app/modules/remover/{rmbg,birefnet}/process.py`:
  Python attribute access is modelled by `pyGetattr` over the list of attribute
  names an object actually defines; the remover entry points are embedded as
  their (ordered) traces of attribute reads in the `Except PyError` monad.
* `app/services/pipeline.py`: the orchestrator `process` is embedded over an
  environment of stage functions (download, extraction, removal, upscaling,
  saving), each returning `Except PyError`.  `asyncio.gather` over a batch is
  modelled sequentially (the surfaced error is the leftmost one); for the save
  stage, where each `img.save` has the side effect of writing a file, every
  save is attempted and the files written by successful saves are recorded even
  when another save fails, matching `gather`'s no-cancellation semantics.
* `app/core/process_lock.py`, `_remove_backgrounds`, `_upscale_images`: the
  concurrency structure is embedded as the batches of tasks the orchestrator
  spawns before awaiting any of them, each task carrying the file locks its
  code path acquires.
* `app/modules/remover/birefnet/utils.py`, `rmbg/utils.py`, `isnet/utils.py`:
  the matte-refinement numerics over `List (List ℝ)` mattes, with
  `np.percentile` embedded with its default linear-interpolation method and
  `np.power` as `Real.rpow`.
-/

namespace DesignExtraction

/-! ## Python error and attribute model -/

/-- The Python exceptions relevant to the embedded code paths. -/
inductive PyError where
  | attributeError (attr : String)
  | valueError (msg : String)
  | runtimeError (msg : String)
deriving DecidableEq, Repr

/-- A Python object, reduced to the list of attribute names it defines. -/
structure PyObject where
  attrs : List String
deriving DecidableEq

/-- Python attribute access: reading a missing attribute raises `AttributeError`. -/
def pyGetattr (o : PyObject) (a : String) : Except PyError Unit :=
  if a ∈ o.attrs then .ok () else .error (.attributeError a)

/-- The attributes set by `ModelManager.__init__`
(`app/core/model_manager.py`, lines 51-57). -/
def modelManagerObj : PyObject :=
  ⟨["device", "is_initialized", "gemini_client", "isnet_model", "realesrgan_model"]⟩

/-- The fields declared by `RmbgSettings` (`app/modules/remover/rmbg/config.py`). -/
def rmbgSettingsObj : PyObject :=
  ⟨["MODEL_INPUT_SIZE", "USE_NOISE_REMOVAL", "NOISE_REMOVAL_THRESHOLD",
    "MIN_COMPONENT_AREA", "CORE_THRESHOLD", "USE_GUIDED_FILTER",
    "GUIDED_FILTER_RADIUS", "GUIDED_FILTER_EPS"]⟩

/-- The fields declared by `BirefnetSettings` (`app/modules/remover/birefnet/config.py`). -/
def birefnetSettingsObj : PyObject :=
  ⟨["MODEL_INPUT_SIZE", "CORE_THRESHOLD_PERCENTILE", "BOOST_MAX_PERCENTILE",
    "CORE_THRESHOLD_CLAMP", "BOOST_MAX_CLAMP", "HARD_BOOST_INPUT_MIN",
    "HARD_BOOST_INPUT_MAX", "HARD_BOOST_GAMMA", "SOFT_BOOST_INPUT_MIN",
    "SOFT_BOOST_GAMMA"]⟩

/-- The ordered trace of `model_manager.*` and `settings.*` attribute reads
performed by `rmbg/process.py run` (lines 22, 23, 27, 36, 40-41, 47, 49, 53,
59-60).  The numeric image computation between the reads is irrelevant to the
outcome because the very first read already raises. -/
def rmbgRunAttrReads : Except PyError Unit := do
  pyGetattr modelManagerObj "rmbg_processor"
  pyGetattr modelManagerObj "device"
  pyGetattr modelManagerObj "rmbg_model"
  pyGetattr rmbgSettingsObj "USE_NOISE_REMOVAL"
  pyGetattr rmbgSettingsObj "NOISE_REMOVAL_THRESHOLD"
  pyGetattr rmbgSettingsObj "MIN_COMPONENT_AREA"
  pyGetattr rmbgSettingsObj "PENUMBRA_LOWER_BOUND"
  pyGetattr rmbgSettingsObj "CORE_THRESHOLD"
  pyGetattr rmbgSettingsObj "USE_GUIDED_FILTER"
  pyGetattr rmbgSettingsObj "GUIDED_FILTER_RADIUS"
  pyGetattr rmbgSettingsObj "GUIDED_FILTER_EPS"

/-- `rmbg/process.py run`: the attribute-read trace followed by the final RGBA
image the function would build were every read to succeed. -/
def rmbgRun {Img : Type} (result : Img) : Except PyError Img := do
  rmbgRunAttrReads
  pure result

/-- The ordered trace of attribute reads performed by `birefnet/process.py run`
(lines 22, 26, 34, 46-47, 52, 55). -/
def birefnetRunAttrReads : Except PyError Unit := do
  pyGetattr birefnetSettingsObj "MODEL_INPUT_SIZE"
  pyGetattr modelManagerObj "device"
  pyGetattr modelManagerObj "birefnet_model"
  pyGetattr birefnetSettingsObj "CORE_THRESHOLD_PERCENTILE"
  pyGetattr birefnetSettingsObj "CORE_THRESHOLD_CLAMP"
  pyGetattr birefnetSettingsObj "BOOST_MAX_PERCENTILE"
  pyGetattr birefnetSettingsObj "BOOST_MAX_CLAMP"
  pyGetattr birefnetSettingsObj "HARD_BOOST_INPUT_MIN"
  pyGetattr birefnetSettingsObj "HARD_BOOST_INPUT_MAX"
  pyGetattr birefnetSettingsObj "HARD_BOOST_GAMMA"
  pyGetattr birefnetSettingsObj "SOFT_BOOST_INPUT_MIN"
  pyGetattr birefnetSettingsObj "SOFT_BOOST_GAMMA"

/-- `birefnet/process.py run`, embedded like `rmbgRun`. -/
def birefnetRun {Img : Type} (result : Img) : Except PyError Img := do
  birefnetRunAttrReads
  pure result

/-! ## The orchestrator (`app/services/pipeline.py`) -/

/-- The `output` sub-object of a request (`request.output.front` / `.back`
in `_download_images`). -/
structure RequestOutput where
  front : String
  back : String
deriving DecidableEq

/-- `ProcessRequest`: `id` plus the two source-image URLs. -/
structure ProcessRequest where
  id : Nat
  output : RequestOutput
deriving DecidableEq

/-- `ProcessResponse`, with exactly the fields the constructor call in
`pipeline.py` lines 76-83 passes: four output URLs (two removal models for
each of the two lanes) and the elapsed seconds. -/
structure ProcessResponse where
  id : Nat
  front_rmbg : String
  front_birefnet : String
  back_rmbg : String
  back_birefnet : String
  processing_time_seconds : ℚ
deriving DecidableEq

/-- The stage functions the orchestrator composes.  `save url img` returns the
saved file's URL, or an error when the write fails; `elapsed` stands for the
wall-clock accounting. -/
structure StageEnv (Img : Type) where
  download : String → Except PyError Img
  extract : Img → Except PyError Img
  removeRmbg : Img → Except PyError Img
  removeBirefnet : Img → Except PyError Img
  upscale : Img → Except PyError Img
  save : String → Img → Except PyError String
  elapsed : ℚ

/-- The output filename `design_{request_id}_{timestamp}_{key}.png`
(`_save_images`); the request-constant timestamp component is omitted. -/
def fileName (rid : Nat) (key : String) : String :=
  "design_" ++ toString rid ++ "_" ++ key ++ ".png"

/-- Stages 1-4 of `process`: download both lanes, extract both, remove the
background of each extraction with both models, upscale all four results,
labelled with the dictionary keys of `_remove_backgrounds`. -/
def stages1to4 {Img : Type} (env : StageEnv Img) (req : ProcessRequest) :
    Except PyError (List (String × Img)) := do
  let frontImg ← env.download req.output.front
  let backImg ← env.download req.output.back
  let frontExtracted ← env.extract frontImg
  let backExtracted ← env.extract backImg
  let frontRmbg ← env.removeRmbg frontExtracted
  let frontBirefnet ← env.removeBirefnet frontExtracted
  let backRmbg ← env.removeRmbg backExtracted
  let backBirefnet ← env.removeBirefnet backExtracted
  let up1 ← env.upscale frontRmbg
  let up2 ← env.upscale frontBirefnet
  let up3 ← env.upscale backRmbg
  let up4 ← env.upscale backBirefnet
  pure [("front_rmbg", up1), ("front_birefnet", up2),
        ("back_rmbg", up3), ("back_birefnet", up4)]

/-- Stage 5, first half: attempt every save (`asyncio.gather` does not cancel
the other save tasks when one raises). -/
def attemptSaves {Img : Type} (env : StageEnv Img) (rid : Nat)
    (imgs : List (String × Img)) : List (String × Except PyError String) :=
  imgs.map (fun ki => (ki.1, env.save (fileName rid ki.1) ki.2))

/-- The URL dictionary, or the leftmost save error. -/
def collectUrls : List (String × Except PyError String) →
    Except PyError (List (String × String))
  | [] => .ok []
  | (k, .ok u) :: rest => (collectUrls rest).map (fun t => (k, u) :: t)
  | (_, .error e) :: _ => .error e

/-- The files actually written to the output directory by the save attempts. -/
def writtenFiles (rid : Nat) : List (String × Except PyError String) → List String
  | [] => []
  | (k, .ok _) :: rest => fileName rid k :: writtenFiles rid rest
  | (_, .error _) :: rest => writtenFiles rid rest

/-- `urls[key]`, defaulting to the empty string. -/
def lookupUrl (urls : List (String × String)) (k : String) : String :=
  ((urls.find? (fun p => p.1 == k)).map Prod.snd).getD ""

/-- The `ProcessResponse` literal of `pipeline.py` lines 76-83. -/
def mkResponse (req : ProcessRequest) (urls : List (String × String))
    (elapsed : ℚ) : ProcessResponse :=
  ⟨req.id, lookupUrl urls "front_rmbg", lookupUrl urls "front_birefnet",
    lookupUrl urls "back_rmbg", lookupUrl urls "back_birefnet", elapsed⟩

/-- `pipeline.py process`: the response or the first raised error, paired with
the list of files persisted to the output directory. -/
def process {Img : Type} (env : StageEnv Img) (req : ProcessRequest) :
    Except PyError ProcessResponse × List String :=
  match stages1to4 env req with
  | .error e => (.error e, [])
  | .ok imgs =>
      let saves := attemptSaves env req.id imgs
      match collectUrls saves with
      | .error e => (.error e, writtenFiles req.id saves)
      | .ok urls => (.ok (mkResponse req urls env.elapsed), writtenFiles req.id saves)

/-- The output references of one lane within a response: the spec's lanes are
front and back, and the response carries one reference per removal model for
each. -/
def laneOutputRefs (r : ProcessResponse) : Bool → List String
  | true => [r.front_rmbg, r.front_birefnet]
  | false => [r.back_rmbg, r.back_birefnet]

/-! ## Concurrency structure of the orchestrator -/

/-- The two GPU-resident model families of the spec. -/
inductive GpuFamily where
  | segmentation
  | upscale
deriving DecidableEq, Repr

/-- The named cross-process file locks defined in `app/core/process_lock.py`. -/
inductive LockName where
  | isnetLock
  | realesrganLock
deriving DecidableEq, Repr

/-- One task spawned by the orchestrator into a concurrently awaited batch
(`asyncio.create_task` / `asyncio.to_thread` followed by one `asyncio.gather`).
`locks` lists the file locks acquired anywhere in the task's code path and
`permits` the semaphore permit pools it acquires. -/
structure GpuTask where
  key : String
  family : GpuFamily
  locks : List LockName
  permits : List String
deriving DecidableEq

/-- The batch of four background-removal tasks `_remove_backgrounds` spawns
before awaiting any of them (`pipeline.py` lines 131-148).  Neither
`pipeline.py` nor `rmbg/process.py` nor `birefnet/process.py` imports
`app.core.process_lock`, so no task acquires any lock or permit. -/
def removalBatch : List GpuTask :=
  [⟨"front_rmbg", .segmentation, [], []⟩,
   ⟨"front_birefnet", .segmentation, [], []⟩,
   ⟨"back_rmbg", .segmentation, [], []⟩,
   ⟨"back_birefnet", .segmentation, [], []⟩]

/-- The batch of four upscaling tasks `_upscale_images` spawns before awaiting
any of them (`pipeline.py` lines 157-172).  Neither `pipeline.py` nor
`upscaler/process.py` imports `app.core.process_lock`, and no semaphore built
from `settings.UPSCALER_CONCURRENCY_LIMIT` exists anywhere in the source. -/
def upscaleBatch : List GpuTask :=
  [⟨"front_rmbg", .upscale, [], []⟩,
   ⟨"front_birefnet", .upscale, [], []⟩,
   ⟨"back_rmbg", .upscale, [], []⟩,
   ⟨"back_birefnet", .upscale, [], []⟩]

/-- The locks `process_lock.py` defines (lines 11 and 15). -/
def definedLocks : List LockName := [.isnetLock, .realesrganLock]

/-- `Settings.UPSCALER_CONCURRENCY_LIMIT` default (`app/config.py` line 27). -/
def upscalerConcurrencyLimitDefault : Nat := 1

/-! ## Alpha mattes and the refinement numerics

An alpha matte is a 2-D grid of real pixel values, row-major. -/

/-- A 2-D grid of pixel values, as a list of rows. -/
abbrev Matte := List (List ℝ)

/-- The pixel at `(row, column)`, defaulting to `0` out of bounds. -/
def matteGet (m : Matte) (p : ℕ × ℕ) : ℝ := (m.getD p.1 []).getD p.2 0

/-- `np.clip(x, lo, hi)` (`numpy.minimum(hi, numpy.maximum(x, lo))`). -/
noncomputable def npClip (x lo hi : ℝ) : ℝ := min (max x lo) hi

/-- `np.percentile(l, p)` with numpy's default linear-interpolation method:
sort, take `rank = p/100 * (n-1)`, and interpolate linearly between the
entries at `⌊rank⌋` and `⌊rank⌋ + 1`. -/
noncomputable def percentile (l : List ℝ) (p : ℝ) : ℝ :=
  let s := List.insertionSort (· ≤ ·) l
  let rank : ℝ := p / 100 * ((s.length : ℝ) - 1)
  let i : ℕ := ⌊rank⌋.toNat
  let lo := s.getD i 0
  let hi := s.getD (i + 1) lo
  lo + (rank - (i : ℝ)) * (hi - lo)

/-- One pixel of `alpha_levels_adjustment` (`birefnet/utils.py` lines 4-23):
degenerate bounds give a hard step; otherwise pixels below `inputMin` keep
their original value and the rest are clipped, normalised to `[0,1]` and
gamma-corrected (`np.power` embedded as `Real.rpow`). -/
noncomputable def levelsPixel (inputMin inputMax gamma a : ℝ) : ℝ :=
  if |inputMax - inputMin| < 1e-6 then (if inputMin ≤ a then 1 else 0)
  else if a < inputMin then a
  else ((npClip a inputMin inputMax - inputMin) / (inputMax - inputMin)) ^ gamma

/-- `alpha_levels_adjustment` applied pixelwise to a matte. -/
noncomputable def alpha_levels_adjustment (inputMin inputMax gamma : ℝ)
    (m : Matte) : Matte :=
  m.map (List.map (levelsPixel inputMin inputMax gamma))

/-- The values of a matte in row-major order (`ndarray` flattening). -/
def matteValues (m : Matte) : List ℝ := m.flatten

/-- `alpha_matte[alpha_matte > 0.01]` (`get_dynamic_thresholds`, line 34). -/
noncomputable def nonZeroValues (m : Matte) : List ℝ :=
  (matteValues m).filter (fun a => 0.01 < a)

/-- `get_dynamic_thresholds` (`birefnet/utils.py` lines 25-43): with no value
above `0.01` return the clamps; otherwise clamp the two percentiles. -/
noncomputable def get_dynamic_thresholds (m : Matte)
    (corePercentile coreClamp boostPercentile boostClamp : ℝ) : ℝ × ℝ :=
  let nz := nonZeroValues m
  if nz.length = 0 then (coreClamp, boostClamp)
  else (min (percentile nz corePercentile) coreClamp,
        min (percentile nz boostPercentile) boostClamp)

/-- The `BirefnetSettings` fields used by the dual-boost refinement
(`birefnet/config.py`). -/
structure BirefnetSettings where
  CORE_THRESHOLD_PERCENTILE : ℝ
  BOOST_MAX_PERCENTILE : ℝ
  CORE_THRESHOLD_CLAMP : ℝ
  BOOST_MAX_CLAMP : ℝ
  HARD_BOOST_INPUT_MIN : ℝ
  HARD_BOOST_INPUT_MAX : ℝ
  HARD_BOOST_GAMMA : ℝ
  SOFT_BOOST_INPUT_MIN : ℝ
  SOFT_BOOST_GAMMA : ℝ

/-- The default values of `birefnet/config.py`. -/
noncomputable def birefnetDefaults : BirefnetSettings :=
  ⟨98, 95, 0.98, 0.97, 0.10, 0.40, 0.7, 0.10, 0.8⟩

/-- Pixelwise combination of two mattes (`np.maximum` when `f = max`). -/
def matteZipWith (f : ℝ → ℝ → ℝ) (a b : Matte) : Matte :=
  List.zipWith (List.zipWith f) a b

/-- `np.where(core_mask, 1.0, 0.0)` with `core_mask = alpha >= core_threshold`
(`birefnet/process.py` lines 59-60). -/
noncomputable def solidifiedCore (coreThreshold : ℝ) (m : Matte) : Matte :=
  m.map (List.map (fun a => if coreThreshold ≤ a then 1 else 0))

/-- The dual-boost matte refinement of `birefnet/process.py` lines 44-61:
dynamic thresholds, the hard and soft level remaps, their pixelwise maximum,
and the solid core forced in by a final pixelwise maximum. -/
noncomputable def birefnetRefine (s : BirefnetSettings) (m : Matte) : Matte :=
  let t := get_dynamic_thresholds m s.CORE_THRESHOLD_PERCENTILE
    s.CORE_THRESHOLD_CLAMP s.BOOST_MAX_PERCENTILE s.BOOST_MAX_CLAMP
  let hard := alpha_levels_adjustment s.HARD_BOOST_INPUT_MIN
    s.HARD_BOOST_INPUT_MAX s.HARD_BOOST_GAMMA m
  let soft := alpha_levels_adjustment s.SOFT_BOOST_INPUT_MIN t.2
    s.SOFT_BOOST_GAMMA m
  let combined := matteZipWith max hard soft
  matteZipWith max combined (solidifiedCore t.1 m)

/-- `compute_adaptive_thresholds` (`isnet/utils.py` lines 111-123) with its
source-default `exclude_threshold = 0.05`: with no foreground value return the
fixed fallbacks `(0.65, 0.40, 0.15)`, otherwise the three percentiles. -/
noncomputable def compute_adaptive_thresholds
    (corePercentile transitionPercentile edgePercentile : ℝ) (m : Matte) :
    ℝ × ℝ × ℝ :=
  let fv := (matteValues m).filter (fun a => 0.05 < a)
  if fv.length = 0 then (0.65, 0.40, 0.15)
  else (percentile fv corePercentile, percentile fv transitionPercentile,
        percentile fv edgePercentile)

/-- `apply_guided_filter` (`rmbg/utils.py` lines 27-54): the
`cv2.ximgproc.guidedFilter` call either produces a filtered matte
(`filterResult = some filtered`) or raises — `AttributeError` when
opencv-contrib is not installed, or `cv2.error` — in which case the
`except` handler logs a warning and returns the input matte unchanged. -/
def apply_guided_filter (filterResult : Option Matte) (alpha : Matte) : Matte :=
  match filterResult with
  | some filtered => filtered
  | none => alpha

/-! ## Connected-noise suppression (`rmbg/utils.py` lines 8-25)

`cv2.connectedComponentsWithStats(binary_mask, connectivity=8)` labels the
maximal 8-connected components of the binarised matte and reports each
component's pixel count; `remove_noise_with_components` keeps a pixel's value
exactly when it is foreground and its component's area reaches `min_area`. -/

/-- 8-neighbour adjacency of two distinct grid positions: both coordinates
differ by at most one. -/
def Adj8 (p q : ℕ × ℕ) : Prop :=
  p ≠ q ∧ max p.1 q.1 - min p.1 q.1 ≤ 1 ∧ max p.2 q.2 - min p.2 q.2 ≤ 1

/-- Position `p` is foreground of the binarised matte: in bounds and with
value strictly above the threshold (`alpha_matte > threshold`). -/
def Foreground (m : Matte) (thr : ℝ) (p : ℕ × ℕ) : Prop :=
  p.1 < m.length ∧ p.2 < (m.getD p.1 []).length ∧ thr < matteGet m p

/-- One step inside a connected component: two adjacent foreground pixels. -/
def CCStep (m : Matte) (thr : ℝ) (p q : ℕ × ℕ) : Prop :=
  Foreground m thr p ∧ Foreground m thr q ∧ Adj8 p q

/-- Two positions lie in the same 8-connected foreground component. -/
def Connected (m : Matte) (thr : ℝ) (p q : ℕ × ℕ) : Prop :=
  Relation.ReflTransGen (CCStep m thr) p q

/-- All in-bounds positions of a matte. -/
def boundsFinset (m : Matte) : Finset (ℕ × ℕ) :=
  (Finset.range m.length).biUnion
    (fun i => (Finset.range ((m.getD i []).length)).image (fun j => (i, j)))

/-- The 8-connected component of `p`: the in-bounds positions connected to it.
Its cardinality is the component's `cv2.CC_STAT_AREA`. -/
noncomputable def component (m : Matte) (thr : ℝ) (p : ℕ × ℕ) : Finset (ℕ × ℕ) :=
  letI : DecidablePred (Connected m thr p) := fun _ => Classical.dec _
  (boundsFinset m).filter (Connected m thr p)

/-- `remove_noise_with_components(alpha_matte, threshold, min_area)`: binarise
at `threshold`, keep only the 8-connected components whose area reaches
`min_area`, and multiply the original matte by the surviving mask — a pixel
keeps its exact value when it is foreground and its component is large enough,
and is zeroed otherwise. -/
noncomputable def remove_noise_with_components (thr : ℝ) (minArea : ℕ)
    (m : Matte) : Matte :=
  letI : ∀ p, Decidable (Foreground m thr p) := fun _ => Classical.dec _
  m.mapIdx (fun i row => row.mapIdx (fun j a =>
    if Foreground m thr (i, j) ∧ minArea ≤ (component m thr (i, j)).card
    then a else 0))

/-! ## Concrete instances used by witnesses and counterexamples -/

/-- A concrete request. -/
def req0 : ProcessRequest := ⟨7, ⟨"front.png", "back.png"⟩⟩

/-- An environment whose removal stages are the real (embedded) remover entry
points and whose remaining stages succeed. -/
def removerEnv : StageEnv Unit where
  download := fun _ => .ok ()
  extract := fun _ => .ok ()
  removeRmbg := fun im => rmbgRun im
  removeBirefnet := fun im => birefnetRun im
  upscale := fun _ => .ok ()
  save := fun n _ => .ok n
  elapsed := 0

/-- An environment in which every stage succeeds. -/
def okEnv : StageEnv Unit where
  download := fun _ => .ok ()
  extract := fun _ => .ok ()
  removeRmbg := fun _ => .ok ()
  removeBirefnet := fun _ => .ok ()
  upscale := fun _ => .ok ()
  save := fun n _ => .ok ("https://cdn/" ++ n)
  elapsed := 3

/-- Like `okEnv`, except that saving the last of the four output files fails. -/
def failSaveEnv : StageEnv Unit :=
  { okEnv with
    save := fun n _ =>
      if n = fileName 7 "back_birefnet" then .error (.runtimeError "disk full")
      else .ok ("https://cdn/" ++ n) }

/-- Like `okEnv`, except that every download fails. -/
def failDownloadEnv : StageEnv Unit :=
  { okEnv with download := fun _ => .error (.runtimeError "net") }

/-- The response `process okEnv req0` produces. -/
def respOk : ProcessResponse :=
  ⟨7, "https://cdn/design_7_front_rmbg.png", "https://cdn/design_7_front_birefnet.png",
    "https://cdn/design_7_back_rmbg.png", "https://cdn/design_7_back_birefnet.png", 3⟩

/-- The birefnet default configuration with the hard-boost gamma replaced by
`-1`, a configuration `BirefnetSettings` does not rule out. -/
noncomputable def badGammaSettings : BirefnetSettings :=
  ⟨98, 95, 0.98, 0.97, 0.10, 0.40, -1, 0.10, 0.8⟩

/-- A 1×4 matte whose binarisation at `0.05` has one two-pixel 8-connected
component `{(0,0), (0,1)}` and one isolated pixel `(0,3)`. -/
noncomputable def noiseMatte : Matte := [[0.5, 0.5, 0, 0.3]]

/-! ## Helper lemmas -/

lemma rowGet_map (f : ℝ → ℝ) (m : Matte) (i : ℕ) (hi : i < m.length) :
    (m.map (List.map f)).getD i [] = List.map f (m.getD i []) := by
  rw [List.getD_eq_getElem _ _ (by simpa using hi), List.getD_eq_getElem _ _ hi,
    List.getElem_map]

lemma matteGet_map (f : ℝ → ℝ) (m : Matte) (i j : ℕ) (hi : i < m.length)
    (hj : j < (m.getD i []).length) :
    matteGet (m.map (List.map f)) (i, j) = f (matteGet m (i, j)) := by
  unfold matteGet
  rw [rowGet_map f m i hi]
  rw [List.getD_eq_getElem _ _ (by simpa using hj), List.getD_eq_getElem _ _ hj,
    List.getElem_map]

lemma rowGet_zipWith (f : ℝ → ℝ → ℝ) (a b : Matte) (i : ℕ)
    (hia : i < a.length) (hib : i < b.length) :
    (matteZipWith f a b).getD i [] = List.zipWith f (a.getD i []) (b.getD i []) := by
  unfold matteZipWith
  rw [List.getD_eq_getElem _ _ (by rw [List.length_zipWith]; exact lt_min hia hib),
    List.getD_eq_getElem _ _ hia, List.getD_eq_getElem _ _ hib, List.getElem_zipWith]

lemma matteGet_zipWith (f : ℝ → ℝ → ℝ) (a b : Matte) (i j : ℕ)
    (hia : i < a.length) (hib : i < b.length)
    (hja : j < (a.getD i []).length) (hjb : j < (b.getD i []).length) :
    matteGet (matteZipWith f a b) (i, j) =
      f (matteGet a (i, j)) (matteGet b (i, j)) := by
  unfold matteGet
  rw [rowGet_zipWith f a b i hia hib]
  rw [List.getD_eq_getElem _ _ (by rw [List.length_zipWith]; exact lt_min hja hjb),
    List.getD_eq_getElem _ _ hja, List.getD_eq_getElem _ _ hjb, List.getElem_zipWith]

lemma normalized_mem_unit {lo hi a : ℝ} (hne : hi ≠ lo) :
    0 ≤ (npClip a lo hi - lo) / (hi - lo) ∧ (npClip a lo hi - lo) / (hi - lo) ≤ 1 := by
  rcases lt_or_gt_of_ne hne with hlt | hgt
  · have hclip : npClip a lo hi = hi := by
      unfold npClip
      exact min_eq_right (le_trans (le_of_lt hlt) (le_max_right a lo))
    rw [hclip, div_self (sub_ne_zero.mpr (ne_of_lt hlt))]
    norm_num
  · have h1 : lo ≤ npClip a lo hi := le_min (le_max_right a lo) (le_of_lt hgt)
    have h2 : npClip a lo hi ≤ hi := min_le_right _ _
    constructor
    · exact div_nonneg (by linarith) (by linarith)
    · rw [div_le_one (by linarith)]
      linarith

lemma levelsPixel_mem_unit {lo hi gamma a : ℝ} (ha0 : 0 ≤ a) (ha1 : a ≤ 1)
    (hg : 0 ≤ gamma) :
    0 ≤ levelsPixel lo hi gamma a ∧ levelsPixel lo hi gamma a ≤ 1 := by
  unfold levelsPixel
  split
  · split
    · norm_num
    · norm_num
  · rename_i hdeg
    split
    · exact ⟨ha0, ha1⟩
    · have hne : hi ≠ lo := by
        intro h0
        exact hdeg (by rw [h0]; norm_num)
      obtain ⟨hx0, hx1⟩ := normalized_mem_unit (a := a) hne
      exact ⟨Real.rpow_nonneg hx0 _, Real.rpow_le_one hx0 hx1 hg⟩

lemma map_eq_self_of {α : Type} {f : α → α} :
    ∀ {l : List α}, (∀ a ∈ l, f a = a) → l.map f = l
  | [], _ => rfl
  | a :: t, h => by
    rw [List.map_cons, h a (List.mem_cons_self a t),
      map_eq_self_of (fun x hx => h x (List.mem_cons_of_mem a hx))]

lemma zipWith_self_eq {α : Type} {f : α → α → α} (hf : ∀ a, f a a = a) :
    ∀ l : List α, List.zipWith f l l = l
  | [] => rfl
  | a :: t => by rw [List.zipWith_cons_cons, hf, zipWith_self_eq hf t]

lemma alpha_levels_length (lo hi g : ℝ) (m : Matte) :
    (alpha_levels_adjustment lo hi g m).length = m.length := List.length_map _ _

lemma alpha_levels_row (lo hi g : ℝ) (m : Matte) (i : ℕ) (hi' : i < m.length) :
    (alpha_levels_adjustment lo hi g m).getD i [] =
      List.map (levelsPixel lo hi g) (m.getD i []) := rowGet_map _ _ _ hi'

lemma solidifiedCore_length (t : ℝ) (m : Matte) :
    (solidifiedCore t m).length = m.length := List.length_map _ _

lemma solidifiedCore_row (t : ℝ) (m : Matte) (i : ℕ) (hi' : i < m.length) :
    (solidifiedCore t m).getD i [] =
      List.map (fun a => if t ≤ a then (1 : ℝ) else 0) (m.getD i []) :=
  rowGet_map _ _ _ hi'

lemma matteZipWith_length (f : ℝ → ℝ → ℝ) (a b : Matte) :
    (matteZipWith f a b).length = min a.length b.length := List.length_zipWith _ _ _

lemma matteGet_alpha_levels (lo hi g : ℝ) (m : Matte) (i j : ℕ)
    (hi' : i < m.length) (hj' : j < (m.getD i []).length) :
    matteGet (alpha_levels_adjustment lo hi g m) (i, j) =
      levelsPixel lo hi g (matteGet m (i, j)) :=
  matteGet_map _ _ _ _ hi' hj'

lemma matteGet_solidifiedCore (t : ℝ) (m : Matte) (i j : ℕ)
    (hi' : i < m.length) (hj' : j < (m.getD i []).length) :
    matteGet (solidifiedCore t m) (i, j) =
      if t ≤ matteGet m (i, j) then 1 else 0 :=
  matteGet_map _ _ _ _ hi' hj'

lemma alpha_levels_row_length (lo hi g : ℝ) (m : Matte) (i : ℕ)
    (hi' : i < m.length) :
    ((alpha_levels_adjustment lo hi g m).getD i []).length = (m.getD i []).length := by
  rw [alpha_levels_row _ _ _ _ _ hi', List.length_map]

lemma solidifiedCore_row_length (t : ℝ) (m : Matte) (i : ℕ) (hi' : i < m.length) :
    ((solidifiedCore t m).getD i []).length = (m.getD i []).length := by
  rw [solidifiedCore_row _ _ _ hi', List.length_map]

lemma matteGet_refine (s : BirefnetSettings) (m : Matte) (i j : ℕ)
    (hi : i < m.length) (hj : j < (m.getD i []).length) :
    matteGet (birefnetRefine s m) (i, j) =
      max (max (levelsPixel s.HARD_BOOST_INPUT_MIN s.HARD_BOOST_INPUT_MAX
                 s.HARD_BOOST_GAMMA (matteGet m (i, j)))
               (levelsPixel s.SOFT_BOOST_INPUT_MIN
                 (get_dynamic_thresholds m s.CORE_THRESHOLD_PERCENTILE
                   s.CORE_THRESHOLD_CLAMP s.BOOST_MAX_PERCENTILE
                   s.BOOST_MAX_CLAMP).2 s.SOFT_BOOST_GAMMA (matteGet m (i, j))))
          (if (get_dynamic_thresholds m s.CORE_THRESHOLD_PERCENTILE
                 s.CORE_THRESHOLD_CLAMP s.BOOST_MAX_PERCENTILE
                 s.BOOST_MAX_CLAMP).1 ≤ matteGet m (i, j) then 1 else 0) := by
  classical
  have hlh := alpha_levels_length s.HARD_BOOST_INPUT_MIN s.HARD_BOOST_INPUT_MAX
    s.HARD_BOOST_GAMMA m
  have hls := alpha_levels_length s.SOFT_BOOST_INPUT_MIN
    (get_dynamic_thresholds m s.CORE_THRESHOLD_PERCENTILE s.CORE_THRESHOLD_CLAMP
      s.BOOST_MAX_PERCENTILE s.BOOST_MAX_CLAMP).2 s.SOFT_BOOST_GAMMA m
  have hlc := solidifiedCore_length (get_dynamic_thresholds m
    s.CORE_THRESHOLD_PERCENTILE s.CORE_THRESHOLD_CLAMP s.BOOST_MAX_PERCENTILE
    s.BOOST_MAX_CLAMP).1 m
  have hrh := alpha_levels_row_length s.HARD_BOOST_INPUT_MIN s.HARD_BOOST_INPUT_MAX
    s.HARD_BOOST_GAMMA m i hi
  have hrs := alpha_levels_row_length s.SOFT_BOOST_INPUT_MIN
    (get_dynamic_thresholds m s.CORE_THRESHOLD_PERCENTILE s.CORE_THRESHOLD_CLAMP
      s.BOOST_MAX_PERCENTILE s.BOOST_MAX_CLAMP).2 s.SOFT_BOOST_GAMMA m i hi
  have hrc := solidifiedCore_row_length (get_dynamic_thresholds m
    s.CORE_THRESHOLD_PERCENTILE s.CORE_THRESHOLD_CLAMP s.BOOST_MAX_PERCENTILE
    s.BOOST_MAX_CLAMP).1 m i hi
  have hinner : i < (matteZipWith max
      (alpha_levels_adjustment s.HARD_BOOST_INPUT_MIN s.HARD_BOOST_INPUT_MAX
        s.HARD_BOOST_GAMMA m)
      (alpha_levels_adjustment s.SOFT_BOOST_INPUT_MIN
        (get_dynamic_thresholds m s.CORE_THRESHOLD_PERCENTILE
          s.CORE_THRESHOLD_CLAMP s.BOOST_MAX_PERCENTILE s.BOOST_MAX_CLAMP).2
        s.SOFT_BOOST_GAMMA m)).length := by
    rw [matteZipWith_length]; omega
  have hinnerRow : j < ((matteZipWith max
      (alpha_levels_adjustment s.HARD_BOOST_INPUT_MIN s.HARD_BOOST_INPUT_MAX
        s.HARD_BOOST_GAMMA m)
      (alpha_levels_adjustment s.SOFT_BOOST_INPUT_MIN
        (get_dynamic_thresholds m s.CORE_THRESHOLD_PERCENTILE
          s.CORE_THRESHOLD_CLAMP s.BOOST_MAX_PERCENTILE s.BOOST_MAX_CLAMP).2
        s.SOFT_BOOST_GAMMA m)).getD i []).length := by
    rw [rowGet_zipWith _ _ _ _ (by omega) (by omega), List.length_zipWith]
    omega
  simp only [birefnetRefine]
  rw [matteGet_zipWith _ _ _ _ _ hinner (by omega) hinnerRow (by omega),
    matteGet_zipWith _ _ _ _ _ (by omega) (by omega) (by omega) (by omega),
    matteGet_alpha_levels _ _ _ _ _ _ hi hj,
    matteGet_alpha_levels _ _ _ _ _ _ hi hj,
    matteGet_solidifiedCore _ _ _ _ hi hj]

lemma refine_length (s : BirefnetSettings) (m : Matte) :
    (birefnetRefine s m).length = m.length := by
  simp only [birefnetRefine, matteZipWith, List.length_zipWith,
    alpha_levels_adjustment, solidifiedCore, List.length_map]
  omega

lemma refine_row_length (s : BirefnetSettings) (m : Matte) (i : ℕ) :
    ((birefnetRefine s m).getD i []).length = (m.getD i []).length := by
  by_cases hi : i < m.length
  · have h1 := alpha_levels_length s.HARD_BOOST_INPUT_MIN s.HARD_BOOST_INPUT_MAX
      s.HARD_BOOST_GAMMA m
    have h2 := alpha_levels_length s.SOFT_BOOST_INPUT_MIN
      (get_dynamic_thresholds m s.CORE_THRESHOLD_PERCENTILE s.CORE_THRESHOLD_CLAMP
        s.BOOST_MAX_PERCENTILE s.BOOST_MAX_CLAMP).2 s.SOFT_BOOST_GAMMA m
    have h3 := solidifiedCore_length (get_dynamic_thresholds m
      s.CORE_THRESHOLD_PERCENTILE s.CORE_THRESHOLD_CLAMP s.BOOST_MAX_PERCENTILE
      s.BOOST_MAX_CLAMP).1 m
    simp only [birefnetRefine]
    rw [rowGet_zipWith _ _ _ _ (by rw [matteZipWith_length]; omega) (by omega),
      rowGet_zipWith _ _ _ _ (by omega) (by omega), List.length_zipWith,
      List.length_zipWith,
      alpha_levels_row_length _ _ _ _ _ hi, alpha_levels_row_length _ _ _ _ _ hi,
      solidifiedCore_row_length _ _ _ hi]
    omega
  · rw [List.getD_eq_default _ _ (by rw [refine_length]; omega),
      List.getD_eq_default _ _ (by omega)]

/-! ### Connected components -/

lemma adj8_symm : Symmetric Adj8 := by
  intro p q h
  obtain ⟨hne, h1, h2⟩ := h
  refine ⟨hne.symm, ?_, ?_⟩
  · rw [max_comm, min_comm]; exact h1
  · rw [max_comm, min_comm]; exact h2

lemma ccstep_symm (m : Matte) (thr : ℝ) : Symmetric (CCStep m thr) :=
  fun _ _ h => ⟨h.2.1, h.1, adj8_symm h.2.2⟩

lemma connected_symm (m : Matte) (thr : ℝ) : Symmetric (Connected m thr) :=
  Relation.ReflTransGen.symmetric (ccstep_symm m thr)

lemma connected_closed {m : Matte} {thr : ℝ} {S : Set (ℕ × ℕ)}
    (hS : ∀ a b, a ∈ S → CCStep m thr a b → b ∈ S) {p q : ℕ × ℕ}
    (hp : p ∈ S) (h : Connected m thr p q) : q ∈ S := by
  induction h with
  | refl => exact hp
  | tail _ hstep ih => exact hS _ _ ih hstep

lemma connected_foreground {m : Matte} {thr : ℝ} {p q : ℕ × ℕ}
    (hp : Foreground m thr p) (h : Connected m thr p q) : Foreground m thr q := by
  induction h with
  | refl => exact hp
  | tail _ hstep _ => exact hstep.2.1

lemma mem_boundsFinset {m : Matte} {p : ℕ × ℕ} :
    p ∈ boundsFinset m ↔ p.1 < m.length ∧ p.2 < (m.getD p.1 []).length := by
  obtain ⟨i, j⟩ := p
  unfold boundsFinset
  simp only [Finset.mem_biUnion, Finset.mem_image, Finset.mem_range, Prod.mk.injEq]
  constructor
  · rintro ⟨i', hi', j', hj', rfl, rfl⟩
    exact ⟨hi', hj'⟩
  · rintro ⟨h1, h2⟩
    exact ⟨i, h1, j, h2, rfl, rfl⟩

lemma mem_component_iff {m : Matte} {thr : ℝ} {p q : ℕ × ℕ} :
    q ∈ component m thr p ↔
      (q.1 < m.length ∧ q.2 < (m.getD q.1 []).length) ∧ Connected m thr p q := by
  classical
  unfold component
  rw [Finset.mem_filter, mem_boundsFinset]

lemma component_eq_of_connected {m : Matte} {thr : ℝ} {p q : ℕ × ℕ}
    (h : Connected m thr p q) : component m thr p = component m thr q := by
  ext x
  rw [mem_component_iff, mem_component_iff]
  constructor
  · rintro ⟨hb, hc⟩
    exact ⟨hb, Relation.ReflTransGen.trans (connected_symm m thr h) hc⟩
  · rintro ⟨hb, hc⟩
    exact ⟨hb, Relation.ReflTransGen.trans h hc⟩

lemma remove_noise_pixel (thr : ℝ) (minArea : ℕ) (m : Matte) (i j : ℕ)
    (hi : i < m.length) (hj : j < (m.getD i []).length) :
    ∀ inst : Decidable (Foreground m thr (i, j) ∧
      minArea ≤ (component m thr (i, j)).card),
    matteGet (remove_noise_with_components thr minArea m) (i, j) =
      @ite _ _ inst (matteGet m (i, j)) 0 := by
  classical
  intro inst
  unfold remove_noise_with_components
  show (((List.mapIdx _ m).getD i []).getD j 0 = _)
  rw [List.getD_eq_getElem?_getD (List.mapIdx _ m), List.getElem?_mapIdx,
    List.getElem?_eq_getElem hi]
  simp only [Option.map_some', Option.getD_some]
  have hj' : j < m[i].length := by
    rw [← List.getD_eq_getElem m [] hi]; exact hj
  rw [List.getD_eq_getElem?_getD, List.getElem?_mapIdx,
    List.getElem?_eq_getElem hj']
  simp only [Option.map_some', Option.getD_some]
  have hv : m[i][j] = matteGet m (i, j) := by
    show _ = (List.getD m i []).getD j 0
    rw [List.getD_eq_getElem m [] hi, List.getD_eq_getElem _ _ hj']
  by_cases hc : Foreground m thr (i, j) ∧ minArea ≤ (component m thr (i, j)).card
  · rw [if_pos hc, if_pos hc, hv]
  · rw [if_neg hc, if_neg hc]

lemma remove_noise_keeps (thr : ℝ) (minArea : ℕ) (m : Matte) (i j : ℕ)
    (hi : i < m.length) (hj : j < (m.getD i []).length)
    (hfg : Foreground m thr (i, j))
    (hcard : minArea ≤ (component m thr (i, j)).card) :
    matteGet (remove_noise_with_components thr minArea m) (i, j) =
      matteGet m (i, j) := by
  classical
  rw [remove_noise_pixel thr minArea m i j hi hj (Classical.dec _),
    if_pos ⟨hfg, hcard⟩]

lemma remove_noise_zeroes (thr : ℝ) (minArea : ℕ) (m : Matte) (i j : ℕ)
    (hi : i < m.length) (hj : j < (m.getD i []).length)
    (hc : ¬(Foreground m thr (i, j) ∧ minArea ≤ (component m thr (i, j)).card)) :
    matteGet (remove_noise_with_components thr minArea m) (i, j) = 0 := by
  classical
  rw [remove_noise_pixel thr minArea m i j hi hj (Classical.dec _), if_neg hc]

/-! ## Claim theorems -/

/-- C1 (code bug): the orchestrator spawns all four background-removal
inference tasks, and then all four upscaling tasks, into concurrently awaited
batches in which no task acquires any of the locks `process_lock.py` defines
(nor any permit pool) — so GPU-exclusive calls of the same model family run
concurrently without the corresponding Resource Lock ever being held. -/
theorem gpu_batches_hold_no_locks :
    removalBatch.all (fun t => t.locks.isEmpty && t.permits.isEmpty) = true ∧
    upscaleBatch.all (fun t => t.locks.isEmpty && t.permits.isEmpty) = true ∧
    removalBatch.length = 4 ∧
    upscaleBatch.length = 4 ∧
    removalBatch.all (fun t => t.family == GpuFamily.segmentation) = true ∧
    upscaleBatch.all (fun t => t.family == GpuFamily.upscale) = true ∧
    definedLocks = [LockName.isnetLock, LockName.realesrganLock] :=
  ⟨rfl, rfl, rfl, rfl, rfl, rfl, rfl⟩

/-- C4 (code bug): `_upscale_images` spawns its four upscaling tasks into one
concurrently awaited batch with no permit pool at all, even though the
configured permit count `UPSCALER_CONCURRENCY_LIMIT` defaults to 1 — the
declared bound is not enforced anywhere. -/
theorem upscale_batch_exceeds_permit_limit :
    upscaleBatch.length = 4 ∧
    upscalerConcurrencyLimitDefault = 1 ∧
    upscaleBatch.all (fun t => t.permits.isEmpty) = true ∧
    upscalerConcurrencyLimitDefault < upscaleBatch.length :=
  ⟨rfl, rfl, rfl, by decide⟩

/-- C10 counterexample: when the guided filter is unavailable at runtime
(`filterResult = none`, i.e. the `cv2.ximgproc` call raised), the rmbg stage
returns its unfiltered input matte unchanged instead of failing the request —
refuting the claim that no stage ever silently returns its unfiltered input. -/
theorem guided_filter_silent_fallback_cex :
    apply_guided_filter none [[(0.5 : ℝ)]] = [[0.5]] := rfl

/-- C10 (amended): when `cv2.ximgproc.guidedFilter` is unavailable or raises,
`apply_guided_filter` logs a warning and returns the input matte unchanged
(graceful degradation, no failure is surfaced); when the filter is available
its output becomes the stage output. -/
theorem guided_filter_unavailable_returns_input :
    (∀ m : Matte, apply_guided_filter none m = m) ∧
    (∀ f m : Matte, apply_guided_filter (some f) m = f) :=
  ⟨fun _ => rfl, fun _ _ => rfl⟩

/-- C9: when the stretch bounds of the level remap are numerically equal
(differ by less than `1e-6`), the remap is a pure step function on every
pixel: values at or above the degenerate bound map to exactly 1 and values
below it map to exactly 0, with dimensions preserved. -/
theorem degenerate_levels_step (lo hi gamma : ℝ) (m : Matte)
    (hdeg : |hi - lo| < 1e-6) :
    (alpha_levels_adjustment lo hi gamma m).length = m.length ∧
    ∀ i j, i < m.length → j < (m.getD i []).length →
      (lo ≤ matteGet m (i, j) →
        matteGet (alpha_levels_adjustment lo hi gamma m) (i, j) = 1) ∧
      (matteGet m (i, j) < lo →
        matteGet (alpha_levels_adjustment lo hi gamma m) (i, j) = 0) := by
  refine ⟨alpha_levels_length _ _ _ _, ?_⟩
  intro i j hi1 hj1
  rw [matteGet_alpha_levels lo hi gamma m i j hi1 hj1]
  unfold levelsPixel
  rw [if_pos hdeg]
  constructor
  · intro h; rw [if_pos h]
  · intro h; rw [if_neg (not_le.mpr h)]

/-- Witness for C9: bounds `0.5`/`0.5` on the matte `[[0.7, 0.3]]` send `0.7`
to exactly 1 and `0.3` to exactly 0. -/
theorem degenerate_levels_step_witness :
    matteGet (alpha_levels_adjustment 0.5 0.5 1 [[(0.7 : ℝ), 0.3]]) (0, 0) = 1 ∧
    matteGet (alpha_levels_adjustment 0.5 0.5 1 [[(0.7 : ℝ), 0.3]]) (0, 1) = 0 := by
  have h := degenerate_levels_step 0.5 0.5 1 [[(0.7 : ℝ), 0.3]] (by norm_num)
  constructor
  · exact (h.2 0 0 (by norm_num) (by norm_num)).1
      (by norm_num [matteGet, List.getD_cons_zero])
  · exact (h.2 0 1 (by norm_num) (by norm_num)).2
      (by norm_num [matteGet, List.getD_cons_zero, List.getD_cons_succ])

lemma rmbgRunAttrReads_error :
    rmbgRunAttrReads = .error (.attributeError "rmbg_processor") := by rfl

lemma birefnetRunAttrReads_error :
    birefnetRunAttrReads = .error (.attributeError "birefnet_model") := by rfl

lemma rmbgRun_error {Img : Type} (res : Img) :
    rmbgRun res = .error (.attributeError "rmbg_processor") := by
  show rmbgRunAttrReads >>= _ = _
  rw [rmbgRunAttrReads_error]
  rfl

lemma birefnetRun_error {Img : Type} (res : Img) :
    birefnetRun res = .error (.attributeError "birefnet_model") := by
  show birefnetRunAttrReads >>= _ = _
  rw [birefnetRunAttrReads_error]
  rfl

lemma except_bind_ok {α β : Type} (a : α) (f : α → Except PyError β) :
    (Except.ok a >>= f) = f a := rfl

lemma except_bind_error {α β : Type} (e : PyError) (f : α → Except PyError β) :
    ((Except.error e : Except PyError α) >>= f) = .error e := rfl

lemma stages1to4_not_ok {Img : Type} (env : StageEnv Img) (req : ProcessRequest)
    (hrm : ∀ im, env.removeRmbg im = rmbgRun im) :
    ∀ imgs, stages1to4 env req ≠ .ok imgs := by
  intro imgs h
  unfold stages1to4 at h
  cases h1 : env.download req.output.front with
  | error e => rw [h1, except_bind_error] at h; exact Except.noConfusion h
  | ok f =>
  rw [h1, except_bind_ok] at h
  cases h2 : env.download req.output.back with
  | error e => rw [h2, except_bind_error] at h; exact Except.noConfusion h
  | ok b =>
  rw [h2, except_bind_ok] at h
  cases h3 : env.extract f with
  | error e => rw [h3, except_bind_error] at h; exact Except.noConfusion h
  | ok fe =>
  rw [h3, except_bind_ok] at h
  cases h4 : env.extract b with
  | error e => rw [h4, except_bind_error] at h; exact Except.noConfusion h
  | ok be =>
  rw [h4, except_bind_ok] at h
  rw [hrm fe, rmbgRun_error, except_bind_error] at h
  exact Except.noConfusion h

/-- C2: both removal entry points fail by reading attributes their inputs do
not define — `rmbg run` reads `model_manager.rmbg_processor` and
`model_manager.rmbg_model`, `birefnet run` reads
`model_manager.birefnet_model`, none of which `ModelManager.__init__` sets,
and `rmbg run`'s code additionally reads `settings.PENUMBRA_LOWER_BOUND`,
which `RmbgSettings` does not declare — each run raises `AttributeError`
before producing any image, and consequently `process` can never return a
success response when its removal stage is the real rmbg entry point. -/
theorem remover_runs_raise_attribute_error :
    (∀ (Img : Type) (res : Img),
      rmbgRun res = .error (.attributeError "rmbg_processor")) ∧
    (∀ (Img : Type) (res : Img),
      birefnetRun res = .error (.attributeError "birefnet_model")) ∧
    "rmbg_processor" ∉ modelManagerObj.attrs ∧
    "rmbg_model" ∉ modelManagerObj.attrs ∧
    "birefnet_model" ∉ modelManagerObj.attrs ∧
    "PENUMBRA_LOWER_BOUND" ∉ rmbgSettingsObj.attrs ∧
    ∀ (Img : Type) (env : StageEnv Img) (req : ProcessRequest),
      (∀ im, env.removeRmbg im = rmbgRun im) →
      ∀ resp, (process env req).1 ≠ .ok resp := by
  refine ⟨fun _ res => rmbgRun_error res, fun _ res => birefnetRun_error res,
    by decide, by decide, by decide, by decide, ?_⟩
  intro Img env req hrm resp h
  unfold process at h
  cases hst : stages1to4 env req with
  | error e => rw [hst] at h; exact absurd h (by simp)
  | ok imgs => exact stages1to4_not_ok env req hrm imgs hst

/-- Witness for C2: with the embedded removers plugged into an otherwise
all-succeeding environment, `process` does not return the success response. -/
theorem remover_runs_raise_attribute_error_witness :
    (process removerEnv req0).1 ≠ .ok ⟨7, "", "", "", "", 0⟩ :=
  remover_runs_raise_attribute_error.2.2.2.2.2.2 Unit removerEnv req0
    (fun _ => rfl) _

/-- C3 counterexample: on a fully successful run, `process` returns a response
carrying two output references per lane (one per removal model), not one — and
when one of the four saves fails, the request aborts while the three files
already saved remain persisted. -/
theorem process_four_refs_cex :
    (process okEnv req0).1 = .ok respOk ∧
    laneOutputRefs respOk true =
      ["https://cdn/design_7_front_rmbg.png",
       "https://cdn/design_7_front_birefnet.png"] ∧
    (laneOutputRefs respOk true).length ≠ 1 ∧
    (laneOutputRefs respOk false).length ≠ 1 ∧
    (process failSaveEnv req0).1 = .error (.runtimeError "disk full") ∧
    (process failSaveEnv req0).2 =
      [fileName 7 "front_rmbg", fileName 7 "front_birefnet",
       fileName 7 "back_rmbg"] :=
  ⟨rfl, rfl, by decide, by decide, rfl, rfl⟩

/-- C3 (amended): `process` either returns a response with exactly two output
references per lane (rmbg and birefnet) plus the elapsed seconds, or
propagates a single failure; a failure in any stage before saving aborts the
request with nothing persisted (a failure while saving also aborts, but files
saved before it remain, per `process_four_refs_cex`). -/
theorem process_two_refs_per_lane_and_abort {Img : Type} (env : StageEnv Img)
    (req : ProcessRequest) :
    (∀ resp, (process env req).1 = .ok resp →
      (laneOutputRefs resp true).length = 2 ∧
      (laneOutputRefs resp false).length = 2 ∧
      resp.processing_time_seconds = env.elapsed) ∧
    (∀ e, stages1to4 env req = .error e → process env req = (.error e, [])) := by
  constructor
  · intro resp h
    unfold process at h
    cases hst : stages1to4 env req with
    | error e => simp [hst] at h
    | ok imgs =>
      simp only [hst] at h
      cases hurl : collectUrls (attemptSaves env req.id imgs) with
      | error e => simp [hurl] at h
      | ok urls =>
        simp only [hurl, Except.ok.injEq] at h
        subst h
        exact ⟨rfl, rfl, rfl⟩
  · intro e he
    unfold process
    rw [he]

/-- Witness for C3 (amended): a download failure aborts the whole request with
nothing persisted. -/
theorem process_two_refs_per_lane_and_abort_witness :
    process failDownloadEnv req0 = (.error (.runtimeError "net"), []) :=
  (process_two_refs_per_lane_and_abort failDownloadEnv req0).2 _ rfl

lemma matteGet_mem_unit {m : Matte} (hm : ∀ r ∈ m, ∀ a ∈ r, 0 ≤ a ∧ a ≤ 1)
    {i j : ℕ} (hi : i < m.length) (hj : j < (m.getD i []).length) :
    0 ≤ matteGet m (i, j) ∧ matteGet m (i, j) ≤ 1 := by
  have hrow : m.getD i [] ∈ m := by
    rw [List.getD_eq_getElem m [] hi]; exact List.getElem_mem hi
  have hval : matteGet m (i, j) ∈ m.getD i [] := by
    show (m.getD i []).getD j 0 ∈ _
    rw [List.getD_eq_getElem _ _ hj]
    exact List.getElem_mem hj
  exact hm _ hrow _ hval

/-- C7 counterexample: the claim quantifies over every stage configuration,
but with the hard-boost gamma set to `-1` (a value `BirefnetSettings` does not
forbid) the refined value of the in-range matte `[[0.2, 0.9]]` at pixel
`(0, 0)` exceeds 1: the hard remap sends `0.2` to `((0.2-0.1)/0.3)⁻¹ = 3`. -/
theorem refine_output_in_unit_range_cex :
    1 < matteGet (birefnetRefine badGammaSettings [[(0.2 : ℝ), 0.9]]) (0, 0) := by
  have hpix := matteGet_refine badGammaSettings [[(0.2 : ℝ), 0.9]] 0 0
    (by norm_num) (by norm_num [List.getD_cons_zero])
  have hv : matteGet [[(0.2 : ℝ), 0.9]] (0, 0) = 0.2 := by
    norm_num [matteGet, List.getD_cons_zero]
  have hhard : levelsPixel badGammaSettings.HARD_BOOST_INPUT_MIN
      badGammaSettings.HARD_BOOST_INPUT_MAX badGammaSettings.HARD_BOOST_GAMMA
      (matteGet [[(0.2 : ℝ), 0.9]] (0, 0)) = 3 := by
    rw [hv]
    show levelsPixel 0.10 0.40 (-1) 0.2 = 3
    unfold levelsPixel
    rw [if_neg (by rw [abs_sub_lt_iff]; norm_num), if_neg (by norm_num)]
    have hclip : npClip 0.2 0.10 0.40 = 0.2 := by
      unfold npClip
      rw [max_eq_left (by norm_num), min_eq_left (by norm_num)]
    rw [hclip, show ((0.2 - 0.10) / (0.40 - 0.10) : ℝ) = (3 : ℝ)⁻¹ by norm_num,
      show ((-1 : ℝ)) = ((-1 : ℤ) : ℝ) by norm_num, Real.rpow_intCast]
    norm_num
  rw [hpix]
  calc (1 : ℝ) < 3 := by norm_num
    _ = levelsPixel badGammaSettings.HARD_BOOST_INPUT_MIN
          badGammaSettings.HARD_BOOST_INPUT_MAX badGammaSettings.HARD_BOOST_GAMMA
          (matteGet [[(0.2 : ℝ), 0.9]] (0, 0)) := hhard.symm
    _ ≤ _ := le_trans (le_max_left _ _) (le_max_left _ _)

/-- C7 (amended): for every input matte with all values in `[0,1]` and every
dual-boost configuration whose gamma exponents are nonnegative (true of every
shipped configuration), every value of the refined output lies in `[0,1]` and
the output has the same dimensions as the input. -/
theorem refine_output_in_unit_range (s : BirefnetSettings) (m : Matte)
    (hm : ∀ r ∈ m, ∀ a ∈ r, 0 ≤ a ∧ a ≤ 1)
    (hg1 : 0 ≤ s.HARD_BOOST_GAMMA) (hg2 : 0 ≤ s.SOFT_BOOST_GAMMA) :
    ((birefnetRefine s m).length = m.length ∧
      ∀ i, ((birefnetRefine s m).getD i []).length = (m.getD i []).length) ∧
    ∀ i j, i < m.length → j < (m.getD i []).length →
      0 ≤ matteGet (birefnetRefine s m) (i, j) ∧
      matteGet (birefnetRefine s m) (i, j) ≤ 1 := by
  refine ⟨⟨refine_length s m, refine_row_length s m⟩, ?_⟩
  intro i j hi hj
  have ha := matteGet_mem_unit hm hi hj
  have hh := @levelsPixel_mem_unit s.HARD_BOOST_INPUT_MIN s.HARD_BOOST_INPUT_MAX
    s.HARD_BOOST_GAMMA (matteGet m (i, j)) ha.1 ha.2 hg1
  have hs := @levelsPixel_mem_unit s.SOFT_BOOST_INPUT_MIN
    (get_dynamic_thresholds m s.CORE_THRESHOLD_PERCENTILE s.CORE_THRESHOLD_CLAMP
      s.BOOST_MAX_PERCENTILE s.BOOST_MAX_CLAMP).2
    s.SOFT_BOOST_GAMMA (matteGet m (i, j)) ha.1 ha.2 hg2
  rw [matteGet_refine s m i j hi hj]
  constructor
  · exact le_trans hh.1 (le_trans (le_max_left _ _) (le_max_left _ _))
  · refine max_le (max_le hh.2 hs.2) ?_
    split
    · exact le_refl 1
    · exact zero_le_one

/-- Witness for C7 (amended) at the default configuration on `[[0.2, 0.9]]`. -/
theorem refine_output_in_unit_range_witness :
    0 ≤ matteGet (birefnetRefine birefnetDefaults [[(0.2 : ℝ), 0.9]]) (0, 1) ∧
    matteGet (birefnetRefine birefnetDefaults [[(0.2 : ℝ), 0.9]]) (0, 1) ≤ 1 := by
  have hm : ∀ r ∈ [[(0.2 : ℝ), 0.9]], ∀ a ∈ r, 0 ≤ a ∧ a ≤ 1 := by
    intro r hr a ha
    rw [List.mem_singleton] at hr
    subst hr
    rcases List.mem_cons.mp ha with rfl | ha2
    · norm_num
    · rw [List.mem_singleton] at ha2
      subst ha2
      norm_num
  exact (refine_output_in_unit_range birefnetDefaults [[(0.2 : ℝ), 0.9]] hm
    (by norm_num [birefnetDefaults]) (by norm_num [birefnetDefaults])).2 0 1
    (by norm_num) (by norm_num [List.getD_cons_zero])

lemma matteZipWith_max_self (m : Matte) : matteZipWith max m m = m := by
  unfold matteZipWith
  exact zipWith_self_eq (fun r => zipWith_self_eq (fun a => max_self a) r) m

/-- C8: an all-zero matte makes every percentile-based threshold computation
detect the empty foreground set and return its fixed safe defaults without
failing — `get_dynamic_thresholds` returns the two clamps,
`compute_adaptive_thresholds` returns `(0.65, 0.40, 0.15)` — and the refined
output matte is all-zero (equal to the input). -/
theorem all_zero_matte_safe (m : Matte) (hz : ∀ r ∈ m, ∀ a ∈ r, a = 0) :
    (∀ cp cc bp bc : ℝ, get_dynamic_thresholds m cp cc bp bc = (cc, bc)) ∧
    (∀ cp tp ep : ℝ,
      compute_adaptive_thresholds cp tp ep m = (0.65, 0.40, 0.15)) ∧
    birefnetRefine birefnetDefaults m = m := by
  have hval : ∀ a ∈ matteValues m, a = 0 := by
    intro a ha
    rw [matteValues, List.mem_flatten] at ha
    obtain ⟨r, hr, har⟩ := ha
    exact hz r hr a har
  have hnz : nonZeroValues m = [] := by
    unfold nonZeroValues
    rw [List.filter_eq_nil_iff]
    intro a ha
    rw [hval a ha]
    norm_num
  have hfv : (matteValues m).filter (fun a => 0.05 < a) = [] := by
    rw [List.filter_eq_nil_iff]
    intro a ha
    rw [hval a ha]
    norm_num
  have hthr : ∀ cp cc bp bc : ℝ, get_dynamic_thresholds m cp cc bp bc = (cc, bc) := by
    intro cp cc bp bc
    simp only [get_dynamic_thresholds, hnz, List.length_nil]
    simp
  refine ⟨hthr, ?_, ?_⟩
  · intro cp tp ep
    simp only [compute_adaptive_thresholds, hfv, List.length_nil]
    simp
  · have hhard : alpha_levels_adjustment birefnetDefaults.HARD_BOOST_INPUT_MIN
        birefnetDefaults.HARD_BOOST_INPUT_MAX birefnetDefaults.HARD_BOOST_GAMMA
        m = m := by
      unfold alpha_levels_adjustment
      apply map_eq_self_of
      intro r hr
      apply map_eq_self_of
      intro a ha
      rw [hz r hr a ha]
      show levelsPixel 0.10 0.40 0.7 0 = 0
      unfold levelsPixel
      rw [if_neg (by rw [abs_sub_lt_iff]; norm_num), if_pos (by norm_num)]
    have hsoft : alpha_levels_adjustment birefnetDefaults.SOFT_BOOST_INPUT_MIN
        (get_dynamic_thresholds m birefnetDefaults.CORE_THRESHOLD_PERCENTILE
          birefnetDefaults.CORE_THRESHOLD_CLAMP birefnetDefaults.BOOST_MAX_PERCENTILE
          birefnetDefaults.BOOST_MAX_CLAMP).2 birefnetDefaults.SOFT_BOOST_GAMMA
        m = m := by
      rw [hthr]
      unfold alpha_levels_adjustment
      apply map_eq_self_of
      intro r hr
      apply map_eq_self_of
      intro a ha
      rw [hz r hr a ha]
      show levelsPixel 0.10 0.97 0.8 0 = 0
      unfold levelsPixel
      rw [if_neg (by rw [abs_sub_lt_iff]; norm_num), if_pos (by norm_num)]
    have hcore : solidifiedCore (get_dynamic_thresholds m
        birefnetDefaults.CORE_THRESHOLD_PERCENTILE birefnetDefaults.CORE_THRESHOLD_CLAMP
        birefnetDefaults.BOOST_MAX_PERCENTILE birefnetDefaults.BOOST_MAX_CLAMP).1
        m = m := by
      rw [hthr]
      unfold solidifiedCore
      apply map_eq_self_of
      intro r hr
      apply map_eq_self_of
      intro a ha
      rw [hz r hr a ha]
      show (if (0.98 : ℝ) ≤ 0 then (1 : ℝ) else 0) = 0
      rw [if_neg (by norm_num)]
    show matteZipWith max (matteZipWith max _ _) _ = m
    rw [hhard, hsoft, hcore, matteZipWith_max_self, matteZipWith_max_self]

/-- Witness for C8 on the all-zero 2×2 matte. -/
theorem all_zero_matte_safe_witness :
    get_dynamic_thresholds [[(0 : ℝ), 0], [0, 0]] 98 0.98 95 0.97 = (0.98, 0.97) ∧
    compute_adaptive_thresholds 75 40 15 [[(0 : ℝ), 0], [0, 0]] =
      (0.65, 0.40, 0.15) ∧
    birefnetRefine birefnetDefaults [[(0 : ℝ), 0], [0, 0]] = [[0, 0], [0, 0]] := by
  have h := all_zero_matte_safe [[(0 : ℝ), 0], [0, 0]] (by
    intro r hr a ha
    have hr' : r = [0, 0] := by
      rcases List.mem_cons.mp hr with h' | h'
      · exact h'
      · rw [List.mem_singleton] at h'; exact h'
    subst hr'
    rcases List.mem_cons.mp ha with rfl | ha2
    · rfl
    · rw [List.mem_singleton] at ha2; exact ha2)
  exact ⟨h.1 98 0.98 95 0.97, h.2.1 75 40 15, h.2.2⟩

/-- C5: in the dual-boost refinement, with nonzero pixels those of value
`> 0.01`, the effective core threshold is
`min (percentile nonzero corePercentile) coreClamp`, the final matte is the
pixelwise maximum of the hard-boost remap, the soft-boost remap and the
solid-core mask, and every pixel whose original value reaches the effective
core threshold is exactly 1 in the final matte. -/
theorem dual_boost_solid_core (s : BirefnetSettings) (m : Matte)
    (hm : ∀ r ∈ m, ∀ a ∈ r, 0 ≤ a ∧ a ≤ 1)
    (hg1 : 0 ≤ s.HARD_BOOST_GAMMA) (hg2 : 0 ≤ s.SOFT_BOOST_GAMMA)
    (hnz : nonZeroValues m ≠ []) :
    get_dynamic_thresholds m s.CORE_THRESHOLD_PERCENTILE s.CORE_THRESHOLD_CLAMP
        s.BOOST_MAX_PERCENTILE s.BOOST_MAX_CLAMP =
      (min (percentile (nonZeroValues m) s.CORE_THRESHOLD_PERCENTILE)
         s.CORE_THRESHOLD_CLAMP,
       min (percentile (nonZeroValues m) s.BOOST_MAX_PERCENTILE)
         s.BOOST_MAX_CLAMP) ∧
    birefnetRefine s m =
      matteZipWith max
        (matteZipWith max
          (alpha_levels_adjustment s.HARD_BOOST_INPUT_MIN s.HARD_BOOST_INPUT_MAX
            s.HARD_BOOST_GAMMA m)
          (alpha_levels_adjustment s.SOFT_BOOST_INPUT_MIN
            (get_dynamic_thresholds m s.CORE_THRESHOLD_PERCENTILE
              s.CORE_THRESHOLD_CLAMP s.BOOST_MAX_PERCENTILE s.BOOST_MAX_CLAMP).2
            s.SOFT_BOOST_GAMMA m))
        (solidifiedCore
          (get_dynamic_thresholds m s.CORE_THRESHOLD_PERCENTILE
            s.CORE_THRESHOLD_CLAMP s.BOOST_MAX_PERCENTILE s.BOOST_MAX_CLAMP).1
          m) ∧
    ∀ i j, i < m.length → j < (m.getD i []).length →
      (get_dynamic_thresholds m s.CORE_THRESHOLD_PERCENTILE
        s.CORE_THRESHOLD_CLAMP s.BOOST_MAX_PERCENTILE s.BOOST_MAX_CLAMP).1 ≤
        matteGet m (i, j) →
      matteGet (birefnetRefine s m) (i, j) = 1 := by
  refine ⟨?_, rfl, ?_⟩
  · simp only [get_dynamic_thresholds]
    rw [if_neg (fun h => hnz (List.length_eq_zero.mp h))]
  · intro i j hi hj hcore
    have ha := matteGet_mem_unit hm hi hj
    have hh := @levelsPixel_mem_unit s.HARD_BOOST_INPUT_MIN s.HARD_BOOST_INPUT_MAX
      s.HARD_BOOST_GAMMA (matteGet m (i, j)) ha.1 ha.2 hg1
    have hs := @levelsPixel_mem_unit s.SOFT_BOOST_INPUT_MIN
      (get_dynamic_thresholds m s.CORE_THRESHOLD_PERCENTILE s.CORE_THRESHOLD_CLAMP
        s.BOOST_MAX_PERCENTILE s.BOOST_MAX_CLAMP).2
      s.SOFT_BOOST_GAMMA (matteGet m (i, j)) ha.1 ha.2 hg2
    rw [matteGet_refine s m i j hi hj, if_pos hcore]
    exact max_eq_right (max_le hh.2 hs.2)

/-- Witness for C5 (the spec scenario): on the matte `[[0.47, 0.47, 0.97]]`
the 98th percentile of the nonzero values computes to exactly 0.95, the
effective core threshold is `min 0.95 0.98 = 0.95`, and the pixel of value
0.97 is forced to exactly 1. -/
theorem dual_boost_solid_core_witness :
    percentile (nonZeroValues [[(0.47 : ℝ), 0.47, 0.97]]) 98 = 0.95 ∧
    (get_dynamic_thresholds [[(0.47 : ℝ), 0.47, 0.97]] 98 0.98 95 0.97).1 = 0.95 ∧
    matteGet (birefnetRefine birefnetDefaults [[(0.47 : ℝ), 0.47, 0.97]]) (0, 2) = 1 := by
  have hnzv : nonZeroValues [[(0.47 : ℝ), 0.47, 0.97]] = [0.47, 0.47, 0.97] := by
    simp [nonZeroValues, matteValues, List.filter]
    norm_num
  have hperc : percentile [(0.47 : ℝ), 0.47, 0.97] 98 = 0.95 := by
    have hsort : List.insertionSort (· ≤ ·) [(0.47 : ℝ), 0.47, 0.97] =
        [0.47, 0.47, 0.97] := by
      simp [List.insertionSort, List.orderedInsert]
      norm_num
    have hrank : (98 : ℝ) / 100 *
        ((List.length [(0.47 : ℝ), 0.47, 0.97] : ℝ) - 1) = 1.96 := by
      norm_num
    simp only [percentile, hsort, hrank]
    have hfloor : ⌊(1.96 : ℝ)⌋ = 1 := by
      rw [Int.floor_eq_iff]
      norm_num
    rw [hfloor]
    norm_num [List.getD_cons_succ, List.getD_cons_zero]
  have hthr1 : (get_dynamic_thresholds [[(0.47 : ℝ), 0.47, 0.97]]
      98 0.98 95 0.97).1 = 0.95 := by
    simp only [get_dynamic_thresholds, hnzv]
    rw [if_neg (by norm_num)]
    rw [hperc]
    show min (0.95 : ℝ) 0.98 = 0.95
    norm_num [min_def]
  have hm : ∀ r ∈ [[(0.47 : ℝ), 0.47, 0.97]], ∀ a ∈ r, 0 ≤ a ∧ a ≤ 1 := by
    intro r hr a ha
    rw [List.mem_singleton] at hr
    subst hr
    rcases List.mem_cons.mp ha with rfl | ha2
    · norm_num
    · rcases List.mem_cons.mp ha2 with rfl | ha3
      · norm_num
      · rw [List.mem_singleton] at ha3
        subst ha3
        norm_num
  have h := dual_boost_solid_core birefnetDefaults [[(0.47 : ℝ), 0.47, 0.97]] hm
    (by norm_num [birefnetDefaults]) (by norm_num [birefnetDefaults])
    (by rw [hnzv]; exact List.cons_ne_nil _ _)
  have hcore : (get_dynamic_thresholds [[(0.47 : ℝ), 0.47, 0.97]]
      birefnetDefaults.CORE_THRESHOLD_PERCENTILE
      birefnetDefaults.CORE_THRESHOLD_CLAMP
      birefnetDefaults.BOOST_MAX_PERCENTILE
      birefnetDefaults.BOOST_MAX_CLAMP).1 ≤
      matteGet [[(0.47 : ℝ), 0.47, 0.97]] (0, 2) := by
    have he : (get_dynamic_thresholds [[(0.47 : ℝ), 0.47, 0.97]]
        birefnetDefaults.CORE_THRESHOLD_PERCENTILE
        birefnetDefaults.CORE_THRESHOLD_CLAMP
        birefnetDefaults.BOOST_MAX_PERCENTILE
        birefnetDefaults.BOOST_MAX_CLAMP).1 = 0.95 := hthr1
    rw [he]
    norm_num [matteGet, List.getD_cons_zero, List.getD_cons_succ]
  exact ⟨by rw [hnzv]; exact hperc, hthr1,
    h.2.2 0 2 (by norm_num) (by norm_num [List.getD_cons_zero]) hcore⟩

/-- C6: after connected-noise suppression (binarise the matte at the
threshold, form 8-connected components), every pixel belonging to a component
whose area reaches `minComponentArea` keeps its exact original matte value,
and every component whose area falls short is fully zeroed. -/
theorem noise_suppression_components (m : Matte) (thr : ℝ) (minArea : ℕ)
    (p : ℕ × ℕ) (hp : Foreground m thr p) :
    (minArea ≤ (component m thr p).card →
      matteGet (remove_noise_with_components thr minArea m) p = matteGet m p) ∧
    ((component m thr p).card < minArea →
      ∀ q ∈ component m thr p,
        matteGet (remove_noise_with_components thr minArea m) q = 0) := by
  obtain ⟨i, j⟩ := p
  constructor
  · intro hcard
    exact remove_noise_keeps thr minArea m i j hp.1 hp.2.1 hp hcard
  · intro hcard q hq
    rw [mem_component_iff] at hq
    obtain ⟨⟨hq1, hq2⟩, hconn⟩ := hq
    obtain ⟨qi, qj⟩ := q
    apply remove_noise_zeroes thr minArea m qi qj hq1 hq2
    rintro ⟨hfgq, hcardq⟩
    have heq := component_eq_of_connected hconn
    rw [← heq] at hcardq
    omega

/-- Witness for C6 on `[[0.5, 0.5, 0, 0.3]]` with threshold `0.05` and
minimum area 2: the pixels of the two-pixel component keep their exact
values while the isolated `0.3` pixel is zeroed. -/
theorem noise_suppression_components_witness :
    matteGet (remove_noise_with_components 0.05 2 noiseMatte) (0, 0) = 0.5 ∧
    matteGet (remove_noise_with_components 0.05 2 noiseMatte) (0, 3) = 0 := by
  have hfg00 : Foreground noiseMatte 0.05 (0, 0) := by
    refine ⟨by norm_num [noiseMatte], by norm_num [noiseMatte, List.getD_cons_zero], ?_⟩
    norm_num [noiseMatte, matteGet, List.getD_cons_zero]
  have hfg01 : Foreground noiseMatte 0.05 (0, 1) := by
    refine ⟨by norm_num [noiseMatte], by norm_num [noiseMatte, List.getD_cons_zero], ?_⟩
    norm_num [noiseMatte, matteGet, List.getD_cons_zero, List.getD_cons_succ]
  have hfg03 : Foreground noiseMatte 0.05 (0, 3) := by
    refine ⟨by norm_num [noiseMatte], by norm_num [noiseMatte, List.getD_cons_zero], ?_⟩
    norm_num [noiseMatte, matteGet, List.getD_cons_zero, List.getD_cons_succ]
  have hfg : ∀ b : ℕ × ℕ, Foreground noiseMatte 0.05 b →
      b = (0, 0) ∨ b = (0, 1) ∨ b = (0, 3) := by
    rintro ⟨bi, bj⟩ ⟨hb1, hb2, hb3⟩
    have hbi : bi = 0 := by
      simp only [noiseMatte, List.length_cons, List.length_nil] at hb1
      omega
    subst hbi
    have hbj : bj < 4 := by
      simp only [noiseMatte, List.getD_cons_zero, List.length_cons,
        List.length_nil] at hb2
      omega
    interval_cases bj
    · exact Or.inl rfl
    · exact Or.inr (Or.inl rfl)
    · exact absurd hb3 (by
        norm_num [noiseMatte, matteGet, List.getD_cons_zero, List.getD_cons_succ])
    · exact Or.inr (Or.inr rfl)
  have hconn01 : Connected noiseMatte 0.05 (0, 0) (0, 1) :=
    Relation.ReflTransGen.single ⟨hfg00, hfg01, by decide, by decide, by decide⟩
  have hsub : ({(0, 0), (0, 1)} : Finset (ℕ × ℕ)) ⊆
      component noiseMatte 0.05 (0, 0) := by
    intro x hx
    rw [Finset.mem_insert, Finset.mem_singleton] at hx
    rcases hx with rfl | rfl
    · rw [mem_component_iff]
      exact ⟨⟨hfg00.1, hfg00.2.1⟩, Relation.ReflTransGen.refl⟩
    · rw [mem_component_iff]
      exact ⟨⟨hfg01.1, hfg01.2.1⟩, hconn01⟩
  have hcard1 : 2 ≤ (component noiseMatte 0.05 (0, 0)).card := by
    have h2 : ({(0, 0), (0, 1)} : Finset (ℕ × ℕ)).card = 2 := by decide
    rw [← h2]
    exact Finset.card_le_card hsub
  have hclosed3 : ∀ a b : ℕ × ℕ, a ∈ ({(0, 3)} : Set (ℕ × ℕ)) →
      CCStep noiseMatte 0.05 a b → b ∈ ({(0, 3)} : Set (ℕ × ℕ)) := by
    rintro a b ha ⟨hfa, hfb, hne, hr, hc⟩
    rw [Set.mem_singleton_iff] at ha
    subst ha
    rcases hfg b hfb with rfl | rfl | rfl
    · exact absurd hc (by decide)
    · exact absurd hc (by decide)
    · rfl
  have hsub3 : component noiseMatte 0.05 (0, 3) ⊆ {(0, 3)} := by
    intro x hx
    rw [mem_component_iff] at hx
    have hxS : x ∈ ({(0, 3)} : Set (ℕ × ℕ)) :=
      connected_closed hclosed3 rfl hx.2
    rw [Set.mem_singleton_iff] at hxS
    rw [Finset.mem_singleton]
    exact hxS
  have hcard3 : (component noiseMatte 0.05 (0, 3)).card < 2 := by
    have hle := Finset.card_le_card hsub3
    have h1 : ({(0, 3)} : Finset (ℕ × ℕ)).card = 1 := rfl
    omega
  have h00 := noise_suppression_components noiseMatte 0.05 2 (0, 0) hfg00
  have h03 := noise_suppression_components noiseMatte 0.05 2 (0, 3) hfg03
  constructor
  · rw [h00.1 hcard1]
    norm_num [noiseMatte, matteGet, List.getD_cons_zero]
  · refine h03.2 hcard3 (0, 3) ?_
    rw [mem_component_iff]
    exact ⟨⟨hfg03.1, hfg03.2.1⟩, Relation.ReflTransGen.refl⟩

end DesignExtraction
